import Mathlib

/-!
Verification development for the position-decision and order-execution engine
of the prism-insight repository.

Monetary amounts, prices and percentages are embedded as rationals (ℚ): every
arithmetic step of the source (`stock_tracking_enhanced_agent.py`,
`trading/domestic_stock_trading.py`) is mirrored exactly, with the Python
float literals 0.8, 1.2, 1.3, 0.7, 1.05 rendered as the rationals they denote.
Market condition is an integer as in the source (1 bull, 0 neutral, -1 bear);
trend scores are integers in -2..2.
-/

namespace PrismInsight

/-! ## Risk parameter calculator
Embeds `EnhancedStockTrackingAgent._dynamic_stop_loss` (lines 179-210) and
`EnhancedStockTrackingAgent._dynamic_target_price` (lines 212-243).  The
per-ticker volatility (`_get_stock_volatility`) is an input here, since the
source obtains it from an external price feed (with cache and 15.0 fallback).
-/

/-- Source line 193: `min(max(base_stop_loss_pct * relative_volatility, 3.0), 15.0)`
with `base_stop_loss_pct = 5.0` and `relative_volatility = volatility / 15.0`. -/
def stop_loss_pct_base (volatility : ℚ) : ℚ :=
  min (max (5 * (volatility / 15)) 3) 15

/-- Source lines 196-199: regime scaling of the clamped stop percentage,
`* 0.8` in a bear market (condition -1), `* 1.2` in a bull market (condition 1),
with no re-clamping. -/
def stop_loss_pct (market_condition : ℤ) (volatility : ℚ) : ℚ :=
  if market_condition = -1 then stop_loss_pct_base volatility * (8/10)
  else if market_condition = 1 then stop_loss_pct_base volatility * (12/10)
  else stop_loss_pct_base volatility

/-- Source line 202: `stop_loss = buy_price * (1 - adjusted_stop_loss_pct/100)`. -/
def dynamic_stop_loss (market_condition : ℤ) (volatility buy_price : ℚ) : ℚ :=
  buy_price * (1 - stop_loss_pct market_condition volatility / 100)

/-- Source line 226: `min(max(base_target_pct * relative_volatility, 5.0), 30.0)`
with `base_target_pct = 10.0`. -/
def target_pct_base (volatility : ℚ) : ℚ :=
  min (max (10 * (volatility / 15)) 5) 30

/-- Source lines 229-232: regime scaling of the clamped target percentage,
`* 1.3` in a bull market, `* 0.7` in a bear market. -/
def target_pct (market_condition : ℤ) (volatility : ℚ) : ℚ :=
  if market_condition = 1 then target_pct_base volatility * (13/10)
  else if market_condition = -1 then target_pct_base volatility * (7/10)
  else target_pct_base volatility

/-- Source line 235: `target_price = buy_price * (1 + adjusted_target_pct/100)`. -/
def dynamic_target_price (market_condition : ℤ) (volatility buy_price : ℚ) : ℚ :=
  buy_price * (1 + target_pct market_condition volatility / 100)

/-! Spec-side formulation of the same computation, written from the words of
spec section 4.3 ("base 5% x (volatility_pct / 15.0), clamped to [3%, 15%];
then scaled x0.8 if regime=Bear, x1.2 if regime=Bull", "base 10% x
(volatility_pct / 15.0), clamped to [5%, 30%]; then scaled x1.3 if Bull,
x0.7 if Bear"), to be compared with the source embedding above. -/

/-- Clamp as written in the spec: clamp(x, lo, hi). -/
def clamp (x lo hi : ℚ) : ℚ := min (max x lo) hi

/-- Spec-side stop-loss percentage: clamp(5 * (v/15), 3, 15) scaled by the
regime multiplier (0.8 Bear, 1.2 Bull, 1 Neutral). -/
def spec_stop_loss_pct (market_condition : ℤ) (v : ℚ) : ℚ :=
  clamp (5 * (v / 15)) 3 15 *
    (if market_condition = -1 then 8/10 else if market_condition = 1 then 12/10 else 1)

/-- Spec-side target percentage: clamp(10 * (v/15), 5, 30) scaled by the
regime multiplier (1.3 Bull, 0.7 Bear, 1 Neutral). -/
def spec_target_pct (market_condition : ℤ) (v : ℚ) : ℚ :=
  clamp (10 * (v / 15)) 5 30 *
    (if market_condition = 1 then 13/10 else if market_condition = -1 then 7/10 else 1)

/-- C1: for every regime, volatility and entry price, the computed stop-loss is
entry_price * (1 - pct/100) where pct = clamp(5*(v/15), 3, 15) scaled by 0.8
(Bear) or 1.2 (Bull) with no re-clamping, and the target is
entry_price * (1 + pct/100) where pct = clamp(10*(v/15), 5, 30) scaled by 1.3
(Bull) or 0.7 (Bear); in particular for entry 10000, volatility 30 and a Bull
regime the stop-loss is 8800 and the target price is 12600. -/
theorem dynamic_risk_params_follow_spec_formula :
    (∀ (mc : ℤ) (v p : ℚ),
        dynamic_stop_loss mc v p = p * (1 - spec_stop_loss_pct mc v / 100) ∧
        dynamic_target_price mc v p = p * (1 + spec_target_pct mc v / 100)) ∧
    dynamic_stop_loss 1 30 10000 = 8800 ∧
    dynamic_target_price 1 30 10000 = 12600 := by
  refine ⟨fun mc v p => ⟨?_, ?_⟩, ?_, ?_⟩
  · unfold dynamic_stop_loss stop_loss_pct spec_stop_loss_pct clamp stop_loss_pct_base
    split_ifs <;> ring
  · unfold dynamic_target_price target_pct spec_target_pct clamp target_pct_base
    split_ifs <;> ring
  · unfold dynamic_stop_loss stop_loss_pct stop_loss_pct_base
    norm_num [min_def, max_def]
  · unfold dynamic_target_price target_pct target_pct_base
    norm_num [min_def, max_def]

/-- C2: for every entry price p > 0, volatility v ≥ 0 and any regime value,
the computed risk parameters bracket the entry price:
stop_loss < p < target_price. -/
theorem risk_params_bracket_entry_price (mc : ℤ) (v p : ℚ)
    (hp : 0 < p) (_hv : 0 ≤ v) :
    dynamic_stop_loss mc v p < p ∧ p < dynamic_target_price mc v p := by
  have hs3 : (3:ℚ) ≤ stop_loss_pct_base v :=
    le_min (le_max_right _ _) (by norm_num)
  have hs15 : stop_loss_pct_base v ≤ 15 := min_le_right _ _
  have ht5 : (5:ℚ) ≤ target_pct_base v :=
    le_min (le_max_right _ _) (by norm_num)
  have hspos : (12/5 : ℚ) ≤ stop_loss_pct mc v := by
    unfold stop_loss_pct
    split_ifs <;> nlinarith
  have hslt : stop_loss_pct mc v ≤ 18 := by
    unfold stop_loss_pct
    split_ifs <;> nlinarith
  have htpos : (7/2 : ℚ) ≤ target_pct mc v := by
    unfold target_pct
    split_ifs <;> nlinarith
  constructor
  · unfold dynamic_stop_loss
    nlinarith
  · unfold dynamic_target_price
    nlinarith

/-- Witness for C2 at a concrete input (Bull regime, volatility 30, entry 10000). -/
theorem risk_params_bracket_entry_price_witness :
    dynamic_stop_loss 1 30 10000 < 10000 ∧
    (10000:ℚ) < dynamic_target_price 1 30 10000 :=
  risk_params_bracket_entry_price 1 30 10000 (by norm_num) (by norm_num)

/-! ## Partial-sale tracking and the exit decision state machine
Embeds the `partial_sales` record (created by `buy_stock` lines 427-434 with
initial_quantity = remaining_quantity = 1), `_execute_partial_sell`
(lines 633-678) and `_analyze_sell_decision` (lines 500-631).
-/

/-- One row of the `partial_sales` table. `last_sell_date` is kept as an
opaque date string. -/
structure PartialSaleRecord where
  initial_quantity : ℚ
  remaining_quantity : ℚ
  initial_buy_price : ℚ
  avg_sell_price : ℚ
  last_sell_date : Option String
deriving DecidableEq, Repr

/-- Embeds `_execute_partial_sell` (lines 633-678): when the row exists, sells
`remaining * ratio`, recomputes the quantity-weighted average sell price
(source lines 654-659, including the `avg_sell_price == 0` first-fill case) and
stamps the sell date; when the row is missing the source returns False and
changes nothing. -/
def execute_partial_sell (record : Option PartialSaleRecord)
    (current_price ratio : ℚ) (today : String) : Option PartialSaleRecord :=
  match record with
  | none => none
  | some r =>
    let sell_quantity := r.remaining_quantity * ratio
    let new_remaining := r.remaining_quantity - sell_quantity
    let new_avg_sell_price :=
      if r.avg_sell_price = 0 then current_price
      else
        let total_sold := r.initial_quantity - r.remaining_quantity
        (r.avg_sell_price * total_sold + current_price * sell_quantity) /
          (total_sold + sell_quantity)
    some { r with
      remaining_quantity := new_remaining
      avg_sell_price := new_avg_sell_price
      last_sell_date := some today }

/-- The human-readable reason attached to every sell decision. Each
constructor corresponds to one return site of `_analyze_sell_decision`; the
numeric values interpolated into the source's Korean strings are formatting
detail and are not carried here. -/
inductive SellReason
  /-- Line 545: stop deferred under a strong uptrend. -/
  | stopDeferredStrongUptrend
  /-- Line 546: stop-loss condition reached. -/
  | stopLossHit
  /-- Line 554: target reached, already partially sold, strong uptrend: keep holding. -/
  | holdStrongTrendAfterTarget
  /-- Line 557: target reached, already partially sold, price rose beyond
  target * remaining_hold_criteria with a non-down trend: keep holding. -/
  | holdExtraRiseAfterTarget
  /-- Line 560: target reached, already partially sold, downtrend: sell all. -/
  | sellDowntrendAfterTarget
  /-- Line 574: first arrival at the target: partial sell executed, keep the rest. -/
  | partialSellDone
  /-- Line 582: short-horizon profit goal met but strong uptrend: keep holding. -/
  | holdShortTermStrongTrend
  /-- Line 583: short-horizon profit goal met: sell. -/
  | sellShortTermTargetMet
  /-- Line 589: short-horizon loss but strong uptrend: keep holding. -/
  | holdShortTermLossStrongTrend
  /-- Line 590: short-horizon loss defense: sell. -/
  | sellShortTermLossDefense
  /-- Line 595: bear market, downtrend, profit above 3%: sell. -/
  | sellBearDowntrendProfit
  /-- Line 600: profit at or above 10%: sell. -/
  | sellProfitOver10
  /-- Line 604: loss at or below -5%: sell. -/
  | sellLossOver5
  /-- Line 608: held 30+ days at a loss: sell. -/
  | sellHeld30Loss
  /-- Line 612: held 60+ days with 3%+ profit: sell. -/
  | sellHeld60Profit3
  /-- Line 616: long horizon, held 90+ days at a loss: sell. -/
  | sellLongTermLoss
  /-- Line 627: default: keep holding. -/
  | holdDefault
deriving DecidableEq, Repr

/-- Embeds `_analyze_sell_decision` (lines 500-631) as a pure function.
Inputs mirror the data the source reads: the market condition field, the
stock_holdings row (buy/current/target/stop prices), the `partial_sales` row
for the ticker (`none` when the SELECT returns no row, in which case the
source uses remaining_quantity = 1, line 535), the trend score from
`_analyze_trend`, the days held, the investment period string from the
scenario JSON, and the instance configuration `partial_sell_ratio` (0.5) and
`remaining_hold_criteria` (1.05). Returns the (sell?, reason) pair together
with the `partial_sales` row as left after the call (only the
first-target-arrival branch, line 564, writes to it). The source's
condition 3 is a nested block under `investment_period == "단기"`; flattening
it into the else-if chain below is equivalent because both inner conditions
return when they fire and otherwise fall through to condition 4. -/
def analyze_sell_decision (market_condition : ℤ)
    (buy_price current_price target_price stop_loss : ℚ)
    (record : Option PartialSaleRecord) (trend days_passed : ℤ)
    (investment_period : String) (partial_sell_ratio remaining_hold_criteria : ℚ)
    (today : String) : (Bool × SellReason) × Option PartialSaleRecord :=
  let profit_rate := (current_price - buy_price) / buy_price * 100
  let remaining_quantity := match record with
    | some r => r.remaining_quantity
    | none => 1
  if 0 < stop_loss ∧ current_price ≤ stop_loss then
    if 2 ≤ trend ∧ -7 < profit_rate then ((false, .stopDeferredStrongUptrend), record)
    else ((true, .stopLossHit), record)
  else if 0 < target_price ∧ target_price ≤ current_price then
    if remaining_quantity < 1 then
      if 2 ≤ trend then ((false, .holdStrongTrendAfterTarget), record)
      else if 0 ≤ trend ∧ target_price * remaining_hold_criteria < current_price then
        ((false, .holdExtraRiseAfterTarget), record)
      else ((true, .sellDowntrendAfterTarget), record)
    else
      ((false, .partialSellDone),
        execute_partial_sell record current_price partial_sell_ratio today)
  else if investment_period = "단기" ∧ 15 ≤ days_passed ∧ 5 ≤ profit_rate then
    if 2 ≤ trend then ((false, .holdShortTermStrongTrend), record)
    else ((true, .sellShortTermTargetMet), record)
  else if investment_period = "단기" ∧ 10 ≤ days_passed ∧ profit_rate ≤ -3 then
    if 2 ≤ trend then ((false, .holdShortTermLossStrongTrend), record)
    else ((true, .sellShortTermLossDefense), record)
  else if market_condition = -1 ∧ trend < 0 ∧ 3 < profit_rate then
    ((true, .sellBearDowntrendProfit), record)
  else if 10 ≤ profit_rate ∧ trend < 2 then ((true, .sellProfitOver10), record)
  else if profit_rate ≤ -5 ∧ trend < 2 then ((true, .sellLossOver5), record)
  else if 30 ≤ days_passed ∧ profit_rate < 0 ∧ trend < 1 then
    ((true, .sellHeld30Loss), record)
  else if 60 ≤ days_passed ∧ 3 ≤ profit_rate ∧ trend < 1 then
    ((true, .sellHeld60Profit3), record)
  else if investment_period = "장기" ∧ 90 ≤ days_passed ∧ profit_rate < 0 ∧ trend < 1 then
    ((true, .sellLongTermLoss), record)
  else ((false, .holdDefault), record)

/-- Shared characterization of the target-reached, already-partially-sold
branch (source lines 549-560): with the stop-loss branch not firing and the
target reached on a record whose remaining quantity is below 1, the decision
is hold under a strong uptrend, hold when the trend is non-negative and the
price exceeds target * remaining_hold_criteria, and sell otherwise; the
record is left untouched in all three cases. -/
theorem partial_branch_characterization (mc : ℤ)
    (buy cur tgt stop : ℚ) (r : PartialSaleRecord) (trend days : ℤ)
    (period today : String)
    (hstop : stop < cur) (htgt : 0 < tgt) (hcur : tgt ≤ cur)
    (hrem : r.remaining_quantity < 1) :
    analyze_sell_decision mc buy cur tgt stop (some r) trend days period
        (1/2) (21/20) today =
      if 2 ≤ trend then ((false, .holdStrongTrendAfterTarget), some r)
      else if 0 ≤ trend ∧ tgt * (21/20) < cur then
        ((false, .holdExtraRiseAfterTarget), some r)
      else ((true, .sellDowntrendAfterTarget), some r) := by
  have h1 : ¬(0 < stop ∧ cur ≤ stop) := fun h => absurd h.2 (not_le.mpr hstop)
  have h2 : 0 < tgt ∧ tgt ≤ cur := ⟨htgt, hcur⟩
  simp only [analyze_sell_decision, if_neg h1, if_pos h2, if_pos hrem]

/-- Record used in the C5 counterexample and witness: a position bought at
10000 with target 10000, already half sold (remaining 1/2 of initial 1). -/
def recPartialC5 : PartialSaleRecord :=
  { initial_quantity := 1
    remaining_quantity := 1/2
    initial_buy_price := 10000
    avg_sell_price := 10500
    last_sell_date := some "2025-01-02 10:00:00" }

/-- Counterexample to C5 as stated: a partially-sold position whose current
price 10600 exceeds target 10000 * 1.05 = 10500 (the remaining-hold
criterion) is nevertheless sold in full when the trend is WeakDown (-1),
because the source (line 556) additionally requires a non-negative trend for
the extra-rise hold; the claim says it would continue holding for every
trend value. -/
theorem partial_exit_downtrend_sells_despite_extra_rise :
    analyze_sell_decision 0 10000 10600 10000 9000 (some recPartialC5) (-1) 5
        "중기" (1/2) (21/20) "2025-01-10 10:00:00" =
      ((true, .sellDowntrendAfterTarget), some recPartialC5) := by
  have h := partial_branch_characterization 0 10000 10600 10000 9000
    recPartialC5 (-1) 5 "중기" "2025-01-10 10:00:00" (by norm_num) (by norm_num)
    (by norm_num) (by norm_num [recPartialC5])
  rw [h]
  norm_num

/-- C5 (amended): for a partially-sold position above its stop-loss with the
target reached, the decision is: StrongUp trend → hold; otherwise hold only
when the trend is at least Neutral AND current_price > target * 1.05;
otherwise (every down trend, regardless of any extra rise) close the
remainder. -/
theorem target_reached_after_partial_sell_decision (mc : ℤ)
    (buy cur tgt stop : ℚ) (r : PartialSaleRecord) (trend days : ℤ)
    (period today : String)
    (hstop : stop < cur) (htgt : 0 < tgt) (hcur : tgt ≤ cur)
    (hinit : r.initial_quantity = 1)
    (hrem : r.remaining_quantity < r.initial_quantity) :
    analyze_sell_decision mc buy cur tgt stop (some r) trend days period
        (1/2) (21/20) today =
      if 2 ≤ trend then ((false, .holdStrongTrendAfterTarget), some r)
      else if 0 ≤ trend ∧ tgt * (21/20) < cur then
        ((false, .holdExtraRiseAfterTarget), some r)
      else ((true, .sellDowntrendAfterTarget), some r) :=
  partial_branch_characterization mc buy cur tgt stop r trend days period today
    hstop htgt hcur (hinit ▸ hrem)

/-- Witness for the amended C5 at a concrete input: WeakUp trend (1) with the
price 10600 beyond 10000 * 1.05 keeps holding the remainder. -/
theorem target_reached_after_partial_sell_decision_witness :
    analyze_sell_decision 0 10000 10600 10000 9000 (some recPartialC5) 1 5
        "중기" (1/2) (21/20) "2025-01-10 10:00:00" =
      ((false, .holdExtraRiseAfterTarget), some recPartialC5) := by
  have h := target_reached_after_partial_sell_decision 0 10000 10600 10000 9000
    recPartialC5 1 5 "중기" "2025-01-10 10:00:00" (by norm_num) (by norm_num)
    (by norm_num) (by norm_num [recPartialC5]) (by norm_num [recPartialC5])
  rw [h]
  norm_num

/-- C6: whenever the stop-loss is positive and the current price is at or
below it, the decision is Close, unless the trend equals StrongUp (2, the
maximum trend score) and the profit rate is above -7%, in which case the
position is held with the stop-deferral reason. -/
theorem stop_loss_close_unless_strong_uptrend (mc : ℤ)
    (buy cur tgt stop : ℚ) (record : Option PartialSaleRecord)
    (trend days : ℤ) (period today : String)
    (hstop : 0 < stop) (hcur : cur ≤ stop) (htr : trend ≤ 2) :
    analyze_sell_decision mc buy cur tgt stop record trend days period
        (1/2) (21/20) today =
      if trend = 2 ∧ -7 < (cur - buy) / buy * 100 then
        ((false, .stopDeferredStrongUptrend), record)
      else ((true, .stopLossHit), record) := by
  have hc : 0 < stop ∧ cur ≤ stop := ⟨hstop, hcur⟩
  simp only [analyze_sell_decision, if_pos hc]
  split_ifs with h1 h2 h3
  · rfl
  · obtain ⟨h11, h12⟩ := h1
    exact absurd ⟨by omega, h12⟩ h2
  · obtain ⟨h21, h22⟩ := h3
    exact absurd ⟨by omega, h22⟩ h1
  · rfl

/-- Witness for C6 at the boundary scenario of the claim: current price
exactly at the stop-loss (9500 on a 10000 buy, profit rate -5%) with trend
StrongUp(2) is held with the deferral reason, not closed. -/
theorem stop_loss_close_unless_strong_uptrend_witness :
    analyze_sell_decision 0 10000 9500 11000 9500 none 2 3 "중기"
        (1/2) (21/20) "2025-01-10 10:00:00" =
      ((false, .stopDeferredStrongUptrend), none) := by
  have h := stop_loss_close_unless_strong_uptrend 0 10000 9500 11000 9500 none
    2 3 "중기" "2025-01-10 10:00:00" (by norm_num) (by norm_num) (by norm_num)
  rw [h]
  norm_num

/-- C9: re-evaluating a position already at PartiallyClosed (remaining
quantity strictly below the initial quantity of 1) with the target reached,
the price above the stop-loss and trend StrongUp returns a continue-holding
outcome and leaves the partial-sales record exactly as it was: no second
partial sell occurs, and remaining_quantity and avg_sell_price are
unchanged. -/
theorem partial_sell_idempotent_under_strong_uptrend (mc : ℤ)
    (buy cur tgt stop : ℚ) (r : PartialSaleRecord) (days : ℤ)
    (period today : String)
    (hstop : stop < cur) (htgt : 0 < tgt) (hcur : tgt ≤ cur)
    (hinit : r.initial_quantity = 1)
    (hrem : r.remaining_quantity < r.initial_quantity) :
    analyze_sell_decision mc buy cur tgt stop (some r) 2 days period
        (1/2) (21/20) today =
      ((false, .holdStrongTrendAfterTarget), some r) := by
  have h := partial_branch_characterization mc buy cur tgt stop r 2 days period
    today hstop htgt hcur (hinit ▸ hrem)
  rw [h]
  norm_num

/-- Record used in the C9 witness: half-sold position, average sell price
already recorded. -/
def recPartialC9 : PartialSaleRecord :=
  { initial_quantity := 1
    remaining_quantity := 1/2
    initial_buy_price := 10000
    avg_sell_price := 10200
    last_sell_date := some "2025-01-02 10:00:00" }

/-- Witness for C9 at a concrete input: StrongUp trend keeps the half-sold
record untouched. -/
theorem partial_sell_idempotent_under_strong_uptrend_witness :
    analyze_sell_decision 0 10000 10300 10200 9000 (some recPartialC9) 2 5
        "중기" (1/2) (21/20) "2025-01-10 10:00:00" =
      ((false, .holdStrongTrendAfterTarget), some recPartialC9) :=
  partial_sell_idempotent_under_strong_uptrend 0 10000 10300 10200 9000
    recPartialC9 5 "중기" "2025-01-10 10:00:00" (by norm_num) (by norm_num)
    (by norm_num) (by norm_num [recPartialC9]) (by norm_num [recPartialC9])

/-! ## Entry gating
Embeds the per-report decision body of `process_reports` (lines 283-353) and
the checks of `buy_stock` (lines 363-394).  The slot count
(`_get_current_slots_count`) and the duplicate-holding test
(`_is_ticker_in_holdings`) live in the base class `StockTrackingAgent`,
which is not part of the provided sources; they enter here as inputs, and the
slot capacity `max_slots` (a base-class field, 10 per the spec scenario
"8 of 10 slots") is a parameter.
-/

/-- Source lines 299-309 and identically 377-387: the minimum buy score is 8,
9 in a bear market, 7 in a bull market, plus 1 when the current slot count is
at least 7 (source comment: 70% full). -/
def min_score (market_condition : ℤ) (current_slots : ℕ) : ℕ :=
  let base := if market_condition = -1 then 9
    else if market_condition = 1 then 7
    else 8
  if 7 ≤ current_slots then base + 1 else base

/-- Spec-side minimum score, written from spec section 4.5: base 8, Bear → 9,
Bull → 7, plus 1 when open slots are at or above 70% of the configured
capacity. -/
def spec_min_score (market_condition : ℤ) (current_slots capacity : ℕ) : ℕ :=
  (if market_condition = -1 then 9
   else if market_condition = 1 then 7
   else 8) +
  (if 7 * capacity ≤ 10 * current_slots then 1 else 0)

/-- The blocking reason attached to a skip notification, in the priority
order of source lines 319-325: sector over-representation first, then score
shortfall, then a non-Enter decision. -/
inductive SkipReason
  | sectorCap
  | scoreShortfall (score required : ℕ)
  | decisionNotEnter
deriving DecidableEq, Repr

/-- Outcome of processing one analysed report. Only `skipNotified` (source
line 340) and `bought` (source line 449) append a message to the notification
queue; the other outcomes merely log. -/
inductive ScenarioOutcome
  /-- Line 283: decision is the already-holding marker: skipped with a log only. -/
  | skippedHolding
  /-- Lines 317-342: the entry gate rejected the scenario and a skip message
  naming the reason was queued. -/
  | skipNotified (reason : SkipReason)
  /-- Lines 367-369: `buy_stock` found the ticker already held; returns False
  with a log only. -/
  | buyFailedDuplicate
  /-- Lines 371-374: `buy_stock` found the slots at capacity; returns False
  with a log only. -/
  | buyFailedSlotsFull
  /-- Lines 390-393: `buy_stock` re-checks the score; returns False with a log
  only (unreachable when the slot count has not changed since the gate). -/
  | buyFailedScore
  /-- Lines 396-452: position and partial-sales rows inserted, buy message
  queued. -/
  | bought
deriving DecidableEq, Repr

/-- Embeds the per-report body of `process_reports` (lines 283-353) combined
with the checks of `buy_stock` (lines 363-394): the already-holding marker is
skipped silently; then the gate `decision != "진입" or buy_score < min_score
or not sector_diverse` queues a skip notification with the blocking reason;
otherwise `buy_stock` runs its duplicate-holding, capacity and score checks
(all silent on failure) and finally buys. -/
def process_scenario (market_condition : ℤ) (current_slots max_slots : ℕ)
    (already_held : Bool) (decision : String) (buy_score : ℕ)
    (sector_diverse : Bool) : ScenarioOutcome :=
  if decision = "보유 중" then .skippedHolding
  else if decision ≠ "진입" ∨ buy_score < min_score market_condition current_slots ∨
      sector_diverse = false then
    .skipNotified
      (if sector_diverse = false then .sectorCap
       else if buy_score < min_score market_condition current_slots then
         .scoreShortfall buy_score (min_score market_condition current_slots)
       else .decisionNotEnter)
  else if already_held then .buyFailedDuplicate
  else if max_slots ≤ current_slots then .buyFailedSlotsFull
  else if buy_score < min_score market_condition current_slots then .buyFailedScore
  else .bought

/-- True exactly when the outcome queued a structured skip notification. -/
def emits_skip_notification : ScenarioOutcome → Bool
  | .skipNotified _ => true
  | _ => false

/-- Counterexample to C7 as stated: a scenario with decision Enter, buy
score 10 and sector diversity, arriving when all 10 of 10 slots are used, is
rejected (no position is opened, `buy_stock` returns False at the capacity
check, source lines 371-374) yet no skip notification is produced — the claim
that every rejected scenario produces a structured skip notification naming
the blocking reason fails here. -/
theorem slots_full_rejection_is_silent :
    process_scenario 0 10 10 false "진입" 10 true = .buyFailedSlotsFull ∧
    emits_skip_notification (process_scenario 0 10 10 false "진입" 10 true)
      = false := by
  constructor <;> rfl

/-- C7 (amended): min_score is 8, raised to 9 in a Bear regime, lowered to 7
in a Bull regime, and raised by 1 whenever the slot count is at or above 70%
of the configured capacity of 10; a scenario leads to a buy only when the
decision is Enter, the buy score reaches min_score and sector diversity
holds; every scenario rejected by that entry gate (and not carrying the
already-holding marker) produces a structured skip notification naming the
blocking reason, while rejections inside the buy step (duplicate holding,
slots at capacity) fail without a notification; in particular buy_score 8 in
a Neutral regime with 8 of 10 slots used is rejected with the score-shortfall
reason (8 < 9). -/
theorem entry_gating_min_score_and_skip_messages :
    (∀ (mc : ℤ) (slots : ℕ), min_score mc slots = spec_min_score mc slots 10) ∧
    (∀ (mc : ℤ) (slots cap : ℕ) (held : Bool) (decision : String) (score : ℕ)
        (diverse : Bool),
      process_scenario mc slots cap held decision score diverse = .bought →
        decision = "진입" ∧ min_score mc slots ≤ score ∧ diverse = true) ∧
    (∀ (mc : ℤ) (slots cap : ℕ) (held : Bool) (decision : String) (score : ℕ)
        (diverse : Bool),
      decision ≠ "보유 중" →
      ¬(decision = "진입" ∧ min_score mc slots ≤ score ∧ diverse = true) →
        emits_skip_notification
          (process_scenario mc slots cap held decision score diverse) = true) ∧
    process_scenario 0 8 10 false "진입" 8 true =
      .skipNotified (.scoreShortfall 8 9) := by
  refine ⟨?_, ?_, ?_, ?_⟩
  · intro mc slots
    have hiff : 7 * 10 ≤ 10 * slots ↔ 7 ≤ slots := by omega
    unfold min_score spec_min_score
    simp only [hiff]
    split_ifs <;> omega
  · intro mc slots cap held decision score diverse h
    unfold process_scenario at h
    split_ifs at h with g1 g2 g3 g4 g5
    push_neg at g2
    exact ⟨g2.1, g2.2.1, by simpa using g2.2.2⟩
  · intro mc slots cap held decision score diverse hmark hgate
    unfold process_scenario
    rw [if_neg hmark, if_pos]
    · rfl
    · by_contra hcon
      push_neg at hcon
      exact hgate ⟨hcon.1, hcon.2.1, by simpa using hcon.2.2⟩
  · rfl

/-- Witness for the amended C7: the gate-rejection conjunct applied at the
concrete claim scenario (Neutral regime, 8 of 10 slots, score 8 < 9). -/
theorem entry_gating_min_score_and_skip_messages_witness :
    emits_skip_notification (process_scenario 0 8 10 false "진입" 8 true)
      = true :=
  entry_gating_min_score_and_skip_messages.2.2.1 0 8 10 false "진입" 8 true
    (by decide) (by decide)

/-! ## Order execution layer
Embeds `trading/domestic_stock_trading.py`.  The brokerage REST endpoint
(`ka._url_fetch`) is modelled by an environment: the quote it would return,
the portfolio the balance inquiry reports, and whether an order submission is
accepted.  Each trading method returns its result object together with the
list of orders actually submitted to the endpoint (empty when no order call
was made).  Wall-clock time is a value in microseconds since midnight, the
precision of Python datetime.time comparisons.
-/

/-- One holding row of `get_portfolio` (lines 1363-1444). -/
structure PortfolioStock where
  stock_code : String
  quantity : ℕ
  avg_price : ℚ
  profit_amount : ℚ
  profit_rate : ℚ
deriving DecidableEq, Repr

/-- The parameters of one submitted order, as assembled for the order-cash or
order-resv endpoint. `ord_dvsn` is ORD_DVSN (order-cash) or ORD_DVSN_CD
(order-resv); `sll_type` is SLL_TYPE (empty for buys, 01 for sells);
`sell_buy_dvsn` is SLL_BUY_DVSN_CD of a reserved order (01 sell, 02 buy,
empty otherwise). -/
structure OrderParams where
  pdno : String
  is_reserved : Bool
  ord_dvsn : String
  qty : ℕ
  unpr : String
  sll_type : String
  sell_buy_dvsn : String
deriving DecidableEq, Repr

/-- The environment a trading call runs against: the configuration flags of
`DomesticStockTrading.__init__` plus the behaviour of the brokerage endpoint
during the call. -/
structure TradingEnv where
  auto_trading : Bool
  buy_amount : ℕ
  /-- Result of `get_current_price`: none models a failed quote inquiry. -/
  quote : String → Option ℕ
  /-- Rows reported by the balance inquiry of `get_portfolio` (only rows with
  positive quantity are kept by the source, line 1415). -/
  portfolio : List PortfolioStock
  /-- Whether the order endpoint accepts a submission (res.isOK()). -/
  order_ok : Bool
  /-- Order number the endpoint returns on acceptance. -/
  order_no : String

/-- Result object of the synchronous trading methods: the keys shared by all
their return dicts.  The source formats quantities and prices into the
message strings; those interpolated numbers are dropped here. -/
structure TradeResult where
  success : Bool
  order_no : Option String
  stock_code : String
  quantity : ℕ
  message : String
deriving DecidableEq, Repr

/-- Message used by every auto-trading guard of the source (the identical
literal appears in each guarded method). -/
def autoTradingDisabledMsg : String :=
  "자동매매가 비활성화되어 있습니다. (AUTO_TRADING=False)"

/-- Embeds `calculate_buy_quantity` (lines 120-149): quote the current price
and take the floor of amount / price; 0 when the quote fails.  (A quoted
price of 0 would raise ZeroDivisionError in the source; here Nat division
yields 0, a case no claim exercises.) -/
def calculate_buy_quantity (env : TradingEnv) (stock_code : String)
    (buy_amount : Option ℕ) : ℕ :=
  let amount := buy_amount.getD env.buy_amount
  match env.quote stock_code with
  | none => 0
  | some current_price => amount / current_price

/-- Embeds `get_holding_quantity` (lines 250-266): quantity of the first
portfolio row for the code, 0 when absent. -/
def get_holding_quantity (env : TradingEnv) (stock_code : String) : ℕ :=
  match env.portfolio.find? (fun s => s.stock_code = stock_code) with
  | some s => s.quantity
  | none => 0

/-- Shared shape of the guarded buy methods (`buy_market_price` lines
151-248, `buy_closing_price` lines 424-514, `buy_after_market` lines
516-605): auto-trading guard, affordability check, then one order-cash
submission with the given ORD_DVSN. -/
def buy_cash_order (env : TradingEnv) (stock_code : String)
    (buy_amount : Option ℕ) (ord_dvsn : String) : TradeResult × List OrderParams :=
  if env.auto_trading = false then
    ({ success := false, order_no := none, stock_code := stock_code,
       quantity := 0, message := autoTradingDisabledMsg }, [])
  else
    let buy_quantity := calculate_buy_quantity env stock_code buy_amount
    if buy_quantity = 0 then
      ({ success := false, order_no := none, stock_code := stock_code,
         quantity := 0, message := "매수 가능 수량이 0입니다" }, [])
    else
      let order : OrderParams :=
        { pdno := stock_code, is_reserved := false, ord_dvsn := ord_dvsn,
          qty := buy_quantity, unpr := "0", sll_type := "", sell_buy_dvsn := "" }
      if env.order_ok then
        ({ success := true, order_no := some env.order_no,
           stock_code := stock_code, quantity := buy_quantity,
           message := "매수 주문 완료" }, [order])
      else
        ({ success := false, order_no := none, stock_code := stock_code,
           quantity := buy_quantity, message := "매수 주문 실패" }, [order])

/-- `buy_market_price` (lines 151-248): ORD_DVSN 01. -/
def buy_market_price (env : TradingEnv) (stock_code : String)
    (buy_amount : Option ℕ) : TradeResult × List OrderParams :=
  buy_cash_order env stock_code buy_amount "01"

/-- `buy_closing_price` (lines 424-514): ORD_DVSN 02. -/
def buy_closing_price (env : TradingEnv) (stock_code : String)
    (buy_amount : Option ℕ) : TradeResult × List OrderParams :=
  buy_cash_order env stock_code buy_amount "02"

/-- `buy_after_market` (lines 516-605): ORD_DVSN 06. -/
def buy_after_market (env : TradingEnv) (stock_code : String)
    (buy_amount : Option ℕ) : TradeResult × List OrderParams :=
  buy_cash_order env stock_code buy_amount "06"

/-- `buy_limit_price` (lines 268-372): auto-trading guard, quantity =
floor(amount / limit_price) with no quote call, then a limit order (ORD_DVSN
00) at the given price. -/
def buy_limit_price (env : TradingEnv) (stock_code : String)
    (limit_price : ℕ) (buy_amount : Option ℕ) : TradeResult × List OrderParams :=
  if env.auto_trading = false then
    ({ success := false, order_no := none, stock_code := stock_code,
       quantity := 0, message := autoTradingDisabledMsg }, [])
  else
    let amount := buy_amount.getD env.buy_amount
    let buy_quantity := amount / limit_price
    if buy_quantity = 0 then
      ({ success := false, order_no := none, stock_code := stock_code,
         quantity := 0, message := "매수 가능 수량이 0입니다" }, [])
    else
      let order : OrderParams :=
        { pdno := stock_code, is_reserved := false, ord_dvsn := "00",
          qty := buy_quantity, unpr := toString limit_price, sll_type := "",
          sell_buy_dvsn := "" }
      if env.order_ok then
        ({ success := true, order_no := some env.order_no,
           stock_code := stock_code, quantity := buy_quantity,
           message := "지정가 매수 주문 완료" }, [order])
      else
        ({ success := false, order_no := none, stock_code := stock_code,
           quantity := buy_quantity, message := "매수 주문 실패" }, [order])

/-- `buy_reserved_order` (lines 607-716, called without end_date):
auto-trading guard, affordability check, then one order-resv submission
(SLL_BUY_DVSN_CD 02 = buy, ORD_DVSN_CD 01 = market). -/
def buy_reserved_order (env : TradingEnv) (stock_code : String)
    (buy_amount : Option ℕ) : TradeResult × List OrderParams :=
  if env.auto_trading = false then
    ({ success := false, order_no := none, stock_code := stock_code,
       quantity := 0, message := autoTradingDisabledMsg }, [])
  else
    let buy_quantity := calculate_buy_quantity env stock_code buy_amount
    if buy_quantity = 0 then
      ({ success := false, order_no := none, stock_code := stock_code,
         quantity := 0, message := "매수 가능 수량이 0입니다" }, [])
    else
      let order : OrderParams :=
        { pdno := stock_code, is_reserved := true, ord_dvsn := "01",
          qty := buy_quantity, unpr := "0", sll_type := "",
          sell_buy_dvsn := "02" }
      if env.order_ok then
        ({ success := true, order_no := some env.order_no,
           stock_code := stock_code, quantity := buy_quantity,
           message := "예약주문 매수 완료" }, [order])
      else
        ({ success := false, order_no := none, stock_code := stock_code,
           quantity := buy_quantity, message := "예약주문 실패" }, [order])

/-- Shared shape of the guarded full-exit sell methods
(`sell_all_market_price` lines 718-813 with ORD_DVSN 01,
`sell_all_closing_price` lines 915-994 with ORD_DVSN 06): auto-trading
guard, holding check, then one order-cash sell (SLL_TYPE 01). -/
def sell_all_cash_order (env : TradingEnv) (stock_code : String)
    (ord_dvsn : String) : TradeResult × List OrderParams :=
  if env.auto_trading = false then
    ({ success := false, order_no := none, stock_code := stock_code,
       quantity := 0, message := autoTradingDisabledMsg }, [])
  else
    let sell_quantity := get_holding_quantity env stock_code
    if sell_quantity = 0 then
      ({ success := false, order_no := none, stock_code := stock_code,
         quantity := 0, message := "보유 수량이 없습니다" }, [])
    else
      let order : OrderParams :=
        { pdno := stock_code, is_reserved := false, ord_dvsn := ord_dvsn,
          qty := sell_quantity, unpr := "0", sll_type := "01",
          sell_buy_dvsn := "" }
      if env.order_ok then
        ({ success := true, order_no := some env.order_no,
           stock_code := stock_code, quantity := sell_quantity,
           message := "전량 매도 주문 완료" }, [order])
      else
        ({ success := false, order_no := none, stock_code := stock_code,
           quantity := sell_quantity, message := "매도 주문 실패" }, [order])

/-- `sell_all_market_price` (lines 718-813). -/
def sell_all_market_price (env : TradingEnv) (stock_code : String) :
    TradeResult × List OrderParams :=
  sell_all_cash_order env stock_code "01"

/-- `sell_all_closing_price` (lines 915-994). -/
def sell_all_closing_price (env : TradingEnv) (stock_code : String) :
    TradeResult × List OrderParams :=
  sell_all_cash_order env stock_code "06"

/-- Embeds `sell_all_after_market_limit` (lines 864-913).  Unlike every other
order method of the class, the source contains NO auto-trading guard here: it
goes straight to the holding check and submits the after-hours sell order
(ORD_DVSN 07) regardless of the auto_trading flag. -/
def sell_all_after_market_limit (env : TradingEnv) (stock_code : String) :
    TradeResult × List OrderParams :=
  let holding_quantity := get_holding_quantity env stock_code
  if holding_quantity = 0 then
    ({ success := false, order_no := none, stock_code := stock_code,
       quantity := 0, message := "보유 수량이 없습니다" }, [])
  else
    let order : OrderParams :=
      { pdno := stock_code, is_reserved := false, ord_dvsn := "07",
        qty := holding_quantity, unpr := "0", sll_type := "01",
        sell_buy_dvsn := "" }
    if env.order_ok then
      ({ success := true, order_no := some env.order_no,
         stock_code := stock_code, quantity := holding_quantity,
         message := "시간외 단일가 매도 완료" }, [order])
    else
      ({ success := false, order_no := none, stock_code := stock_code,
         quantity := 0, message := "매도 실패" }, [order])

/-- `sell_all_reserved_order` (lines 996-1102, called without end_date):
auto-trading guard, holding check, then one order-resv sell submission
(SLL_BUY_DVSN_CD 01). -/
def sell_all_reserved_order (env : TradingEnv) (stock_code : String) :
    TradeResult × List OrderParams :=
  if env.auto_trading = false then
    ({ success := false, order_no := none, stock_code := stock_code,
       quantity := 0, message := autoTradingDisabledMsg }, [])
  else
    let sell_quantity := get_holding_quantity env stock_code
    if sell_quantity = 0 then
      ({ success := false, order_no := none, stock_code := stock_code,
         quantity := 0, message := "보유 수량이 없습니다" }, [])
    else
      let order : OrderParams :=
        { pdno := stock_code, is_reserved := true, ord_dvsn := "01",
          qty := sell_quantity, unpr := "0", sll_type := "",
          sell_buy_dvsn := "01" }
      if env.order_ok then
        ({ success := true, order_no := some env.order_no,
           stock_code := stock_code, quantity := sell_quantity,
           message := "예약주문 매도 완료" }, [order])
      else
        ({ success := false, order_no := none, stock_code := stock_code,
           quantity := sell_quantity, message := "예약주문 실패" }, [order])

/-- Microseconds since midnight for a wall-clock hour and minute, the value
Python datetime.time(h, m) compares as. -/
def hm (h m : ℕ) : ℕ := ((h * 60 + m) * 60) * 1000000

/-- Embeds `smart_buy` (lines 374-422): auto-trading guard, then route by the
current time of day to market (09:00-15:30), closing-price (15:40-16:00),
after-hours (the 16:00-18:00 branch, reachable for times strictly after
16:00) or reserved. -/
def smart_buy (env : TradingEnv) (stock_code : String)
    (buy_amount : Option ℕ) (t : ℕ) : TradeResult × List OrderParams :=
  if env.auto_trading = false then
    ({ success := false, order_no := none, stock_code := stock_code,
       quantity := 0, message := autoTradingDisabledMsg }, [])
  else if hm 9 0 ≤ t ∧ t ≤ hm 15 30 then
    buy_market_price env stock_code buy_amount
  else if hm 15 40 ≤ t ∧ t ≤ hm 16 0 then
    buy_closing_price env stock_code buy_amount
  else if hm 16 0 ≤ t ∧ t ≤ hm 18 0 then
    buy_after_market env stock_code buy_amount
  else
    buy_reserved_order env stock_code buy_amount

/-- Embeds `smart_sell_all` (lines 815-862): auto-trading guard, then the
same time-of-day routing to the full-exit sell variants. -/
def smart_sell_all (env : TradingEnv) (stock_code : String) (t : ℕ) :
    TradeResult × List OrderParams :=
  if env.auto_trading = false then
    ({ success := false, order_no := none, stock_code := stock_code,
       quantity := 0, message := autoTradingDisabledMsg }, [])
  else if hm 9 0 ≤ t ∧ t ≤ hm 15 30 then
    sell_all_market_price env stock_code
  else if hm 15 40 ≤ t ∧ t ≤ hm 16 0 then
    sell_all_closing_price env stock_code
  else if hm 16 0 ≤ t ∧ t ≤ hm 18 0 then
    sell_all_after_market_limit env stock_code
  else
    sell_all_reserved_order env stock_code

/-- Result object of the asynchronous sell API (`async_sell_stock` /
`_execute_sell_stock`, lines 1222-1361), as initialised at line 1262. -/
structure SellApiResult where
  success : Bool
  stock_code : String
  current_price : ℕ
  quantity : ℕ
  estimated_amount : ℕ
  order_no : Option String
  message : String
deriving DecidableEq, Repr

/-- Embeds `_execute_sell_stock` (lines 1260-1361).  The portfolio-check loop
at lines 1288-1291 reads `for current_stock in current_portfolio: if
stock[...] == stock_code:` — the name `stock` is undefined inside the method
(it is only ever bound by the module-level demo block, which does not run
when the module is imported), so the first loop iteration raises NameError,
which the blanket except at line 1354 converts into a failure result; when
the portfolio is empty the loop body never runs and `target_stock` stays
None, giving the not-in-portfolio failure at line 1294.  Either way no order
is ever submitted. -/
def execute_sell_stock (env : TradingEnv) (stock_code : String) :
    SellApiResult × List OrderParams :=
  match env.portfolio with
  | [] =>
    ({ success := false, stock_code := stock_code, current_price := 0,
       quantity := 0, estimated_amount := 0, order_no := none,
       message := "포트폴리오에 종목이 없습니다" }, [])
  | _ :: _ =>
    ({ success := false, stock_code := stock_code, current_price := 0,
       quantity := 0, estimated_amount := 0, order_no := none,
       message := "비동기 매도 API 실행 중 오류: NameError" }, [])

/-- Environment for the C4 evaluation: the brokerage reports the ticker
005930 held with quantity 10 and accepts orders. -/
def envHeld : TradingEnv :=
  { auto_trading := true
    buy_amount := 500000
    quote := fun _ => some 70000
    portfolio := [{ stock_code := "005930", quantity := 10, avg_price := 65000,
                    profit_amount := 50000, profit_rate := 77/10 }]
    order_ok := true
    order_no := "0001" }

/-- C4 fails on the code: for a ticker the portfolio reports as held with
positive quantity (10 shares of 005930) and a broker that accepts orders,
the asynchronous sell submits no order at all and returns success = false —
the undefined name `stock` in the portfolio-verification loop raises
NameError on every call with a non-empty portfolio, so the claimed
re-verify-and-submit path is unreachable. -/
theorem async_sell_always_fails_on_held_ticker :
    get_holding_quantity envHeld "005930" = 10 ∧
    (execute_sell_stock envHeld "005930").1.success = false ∧
    (execute_sell_stock envHeld "005930").2 = [] :=
  ⟨rfl, rfl, rfl⟩

/-- Environment for the C3 evaluation: auto-trading disabled, ticker 005930
held with quantity 10, broker accepting orders. -/
def envDisabled : TradingEnv :=
  { auto_trading := false
    buy_amount := 500000
    quote := fun _ => some 70000
    portfolio := [{ stock_code := "005930", quantity := 10, avg_price := 65000,
                    profit_amount := 50000, profit_rate := 77/10 }]
    order_ok := true
    order_no := "0002" }

/-- C3 fails on the code for exactly one method: with the auto-trading flag
off, `sell_all_after_market_limit` (the after-hours sell variant, which
uniquely lacks the guard every other buy/sell method has) still submits a
full after-hours sell order for the held quantity and returns
success = true. -/
theorem after_market_sell_ignores_auto_trading_flag :
    envDisabled.auto_trading = false ∧
    sell_all_after_market_limit envDisabled "005930" =
      ({ success := true, order_no := some "0002", stock_code := "005930",
         quantity := 10, message := "시간외 단일가 매도 완료" },
       [{ pdno := "005930", is_reserved := false, ord_dvsn := "07",
          qty := 10, unpr := "0", sll_type := "01", sell_buy_dvsn := "" }]) :=
  ⟨rfl, rfl⟩

/-- C8: with auto-trading enabled, smart_buy and smart_sell_all route by the
time of day t (microseconds since midnight): within 09:00-15:30 they behave
as the market-price order methods, within 15:40-16:00 as the closing-price
methods, within 16:00-18:00 (exclusive at 16:00, where the closing-price
branch wins) as the after-hours methods, and at any other time as the
reserved-order methods. -/
theorem smart_routing_by_time_of_day (env : TradingEnv) (code : String)
    (amt : Option ℕ) (t : ℕ) (h : env.auto_trading = true) :
    ((hm 9 0 ≤ t ∧ t ≤ hm 15 30) →
      smart_buy env code amt t = buy_market_price env code amt ∧
      smart_sell_all env code t = sell_all_market_price env code) ∧
    ((hm 15 40 ≤ t ∧ t ≤ hm 16 0) →
      smart_buy env code amt t = buy_closing_price env code amt ∧
      smart_sell_all env code t = sell_all_closing_price env code) ∧
    ((hm 16 0 < t ∧ t ≤ hm 18 0) →
      smart_buy env code amt t = buy_after_market env code amt ∧
      smart_sell_all env code t = sell_all_after_market_limit env code) ∧
    ((¬(hm 9 0 ≤ t ∧ t ≤ hm 15 30) ∧ ¬(hm 15 40 ≤ t ∧ t ≤ hm 16 0) ∧
        ¬(hm 16 0 < t ∧ t ≤ hm 18 0)) →
      smart_buy env code amt t = buy_reserved_order env code amt ∧
      smart_sell_all env code t = sell_all_reserved_order env code) := by
  have hg : ¬ env.auto_trading = false := by simp [h]
  refine ⟨fun hw => ?_, fun hw => ?_, fun hw => ?_, fun hw => ?_⟩
  · constructor
    · unfold smart_buy
      rw [if_neg hg, if_pos hw]
    · unfold smart_sell_all
      rw [if_neg hg, if_pos hw]
  · have hn1 : ¬(hm 9 0 ≤ t ∧ t ≤ hm 15 30) := by
      simp only [hm] at hw ⊢
      omega
    constructor
    · unfold smart_buy
      rw [if_neg hg, if_neg hn1, if_pos hw]
    · unfold smart_sell_all
      rw [if_neg hg, if_neg hn1, if_pos hw]
  · have hn1 : ¬(hm 9 0 ≤ t ∧ t ≤ hm 15 30) := by
      simp only [hm] at hw ⊢
      omega
    have hn2 : ¬(hm 15 40 ≤ t ∧ t ≤ hm 16 0) := by
      simp only [hm] at hw ⊢
      omega
    have hp3 : hm 16 0 ≤ t ∧ t ≤ hm 18 0 := ⟨hw.1.le, hw.2⟩
    constructor
    · unfold smart_buy
      rw [if_neg hg, if_neg hn1, if_neg hn2, if_pos hp3]
    · unfold smart_sell_all
      rw [if_neg hg, if_neg hn1, if_neg hn2, if_pos hp3]
  · obtain ⟨hn1, hn2, hn3⟩ := hw
    have hn3' : ¬(hm 16 0 ≤ t ∧ t ≤ hm 18 0) := by
      simp only [hm] at hn2 hn3 ⊢
      omega
    constructor
    · unfold smart_buy
      rw [if_neg hg, if_neg hn1, if_neg hn2, if_neg hn3']
    · unfold smart_sell_all
      rw [if_neg hg, if_neg hn1, if_neg hn2, if_neg hn3']

/-- Environment for the C8 witness: auto-trading on, empty portfolio. -/
def envRouting : TradingEnv :=
  { auto_trading := true
    buy_amount := 500000
    quote := fun _ => some 70000
    portfolio := []
    order_ok := true
    order_no := "0003" }

/-- Witness for C8 at 10:00, inside the regular-session window: both smart
operations behave as the market-price methods. -/
theorem smart_routing_by_time_of_day_witness :
    smart_buy envRouting "005930" none (hm 10 0) =
      buy_market_price envRouting "005930" none ∧
    smart_sell_all envRouting "005930" (hm 10 0) =
      sell_all_market_price envRouting "005930" :=
  (smart_routing_by_time_of_day envRouting "005930" none (hm 10 0) rfl).1
    (by decide)

/-! ## Market regime classification
Embeds `_analyze_market_condition` (lines 70-131) together with the state it
touches: the `market_condition` field set in `__init__` (line 28) and the
`market_condition` database table (keyed by date, INSERT OR REPLACE at
lines 109-122).
-/

/-- One row of the `market_condition` table. -/
structure MarketConditionRow where
  date : String
  kospi_index : ℚ
  kosdaq_index : ℚ
  condition : ℤ
  volatility : ℚ
deriving DecidableEq, Repr

/-- The agent state `_analyze_market_condition` can mutate. -/
structure AgentState where
  market_condition : ℤ
  market_condition_table : List MarketConditionRow
deriving DecidableEq, Repr

/-- INSERT OR REPLACE keyed by date: replace the row with the same date, or
prepend. -/
def upsert_market_condition (table : List MarketConditionRow)
    (row : MarketConditionRow) : List MarketConditionRow :=
  if table.any (fun r => r.date = row.date) then
    table.map (fun r => if r.date = row.date then row else r)
  else
    row :: table

/-- The two benchmark index close series a successful fetch returns
(`kospi_df['종가']`, `kosdaq_df['종가']` at lines 83-84). -/
structure MarketFetch where
  kospi_close : List ℚ
  kosdaq_close : List ℚ

/-- Embeds `_calculate_trend` (lines 133-138): the slope of the least-squares
regression line of the series against x = 0, 1, ..., n-1, by the closed
formula (n Σxy − Σx Σy) / (n Σx² − (Σx)²). -/
def calculate_trend (ys : List ℚ) : ℚ :=
  let n : ℚ := ys.length
  let xs : List ℚ := (List.range ys.length).map (fun i => (i : ℚ))
  let sx := xs.sum
  let sy := ys.sum
  let sxy := ((xs.zip ys).map (fun p => p.1 * p.2)).sum
  let sxx := (xs.map (fun x => x * x)).sum
  (n * sxy - sx * sy) / (n * sxx - sx * sx)

/-- Embeds `_analyze_market_condition` (lines 70-131) as an explicit state
transition.  `fetch` is the outcome of lines 73-102: `some` carries the two
index close series when the data provider and the return computations
succeed, `none` models any exception raised there (data fetch or processing
failure), which the except-branch at line 129 turns into the (0, 0)
fallback before any state is written (the field assignment is at line 105
and the database write at lines 109-123, both after the fetch).
`volatility` abstracts `_calculate_volatility` (std-dev of daily returns, an
irrational square root in general); every theorem below holds for an
arbitrary such function, in particular the source's. -/
def analyze_market_condition (volatility : List ℚ → ℚ) (today : String)
    (fetch : Option MarketFetch) (st : AgentState) :
    (ℤ × ℚ) × AgentState :=
  match fetch with
  | none => ((0, 0), st)
  | some data =>
    let kospi_trend := calculate_trend data.kospi_close
    let kosdaq_trend := calculate_trend data.kosdaq_close
    let market_condition : ℤ :=
      if 0 < kospi_trend ∧ 0 < kosdaq_trend then 1
      else if kospi_trend < 0 ∧ kosdaq_trend < 0 then -1
      else 0
    let avg_volatility :=
      (volatility data.kospi_close + volatility data.kosdaq_close) / 2
    let row : MarketConditionRow :=
      { date := today
        kospi_index := (data.kospi_close.getLast?).getD 0
        kosdaq_index := (data.kosdaq_close.getLast?).getD 0
        condition := market_condition
        volatility := avg_volatility }
    ((market_condition, avg_volatility),
      { market_condition := market_condition
        market_condition_table := upsert_market_condition st.market_condition_table row })

/-- C10: when the benchmark fetch or its processing fails, the analysis
returns the Neutral/zero-volatility pair (0, 0) and mutates nothing: the
stored market_condition field and the market_condition table of the
resulting state are exactly the previous state, for every volatility
function, date and prior state. -/
theorem market_condition_failure_is_pure_fallback
    (volatility : List ℚ → ℚ) (today : String) (st : AgentState) :
    analyze_market_condition volatility today none st = ((0, 0), st) :=
  rfl

end PrismInsight
